import Mathlib

/-!
Verification of the protein_toolkit computational core.

The definitions below are a shallow embedding, over the real numbers, of
`protein_tool/core/calculators/beer_lambert.py`,
`protein_tool/core/calculators/thermodynamics.py` and the van't Hoff
analysis in `protein_tool/viewmodels/thermodynamics_vm.py`.
Python floats are modelled as real numbers; `ValueError` raises become
`Except.error` values carrying the raise's message (classified into an
inductive error type where the message sites differ); `Optional[float]`
fields become `Option ℝ`.
-/

section BeerLambertDefs

/-- Embedding of `CalculationMode` enum of beer_lambert.py. -/
inductive CalculationMode where
  | ABSORBANCE
  | CONCENTRATION
  | EPSILON
  | PATH_LENGTH
deriving DecidableEq

/-- Embedding of `BeerLambertInput` dataclass: the four optional quantities. -/
structure BeerLambertInput where
  epsilon_Minv_cm : Option ℝ := none
  path_cm : Option ℝ := none
  conc_M : Option ℝ := none
  absorbance : Option ℝ := none

/-- Embedding of `DataPoint` dataclass: one (concentration, absorbance) pair. -/
structure DataPoint where
  concentration : ℝ
  absorbance : ℝ

/-- Embedding of `LinearRegressionResult` dataclass. -/
structure LinearRegressionResult where
  slope : ℝ
  intercept : ℝ
  r_squared : ℝ
  std_error : ℝ
  epsilon : Option ℝ := none

/-- Errors raised by `calculate_beer_lambert` (all `ValueError` in Python);
the constructor records whether the raise site is a required-parameter
presence check or a domain check, with the exact message. -/
inductive BeerLambertError where
  | missingParameter (msg : String)
  | invalidParameter (msg : String)
deriving DecidableEq

/-- Embedding of `calculate_beer_lambert(params, mode)` of beer_lambert.py, lines 35-92:
per-mode presence checks, then domain checks, then the algebraic formula. -/
noncomputable def calculate_beer_lambert (params : BeerLambertInput)
    (mode : CalculationMode) : Except BeerLambertError ℝ :=
  match mode with
  | .ABSORBANCE =>
    match params.epsilon_Minv_cm, params.path_cm, params.conc_M with
    | some e, some l, some c =>
      if e ≤ 0 ∨ l ≤ 0 ∨ c ≤ 0 then
        .error (.invalidParameter "All parameters must be positive")
      else .ok (e * l * c)
    | _, _, _ =>
      .error (.missingParameter
        "Epsilon, path length, and concentration are required to calculate absorbance")
  | .CONCENTRATION =>
    match params.absorbance, params.epsilon_Minv_cm, params.path_cm with
    | some a, some e, some l =>
      if e ≤ 0 ∨ l ≤ 0 then
        .error (.invalidParameter "Epsilon and path length must be positive")
      else if a < 0 then
        .error (.invalidParameter "Absorbance cannot be negative")
      else .ok (a / (e * l))
    | _, _, _ =>
      .error (.missingParameter
        "Absorbance, epsilon, and path length are required to calculate concentration")
  | .EPSILON =>
    match params.absorbance, params.path_cm, params.conc_M with
    | some a, some l, some c =>
      if l ≤ 0 ∨ c ≤ 0 then
        .error (.invalidParameter "Path length and concentration must be positive")
      else if a < 0 then
        .error (.invalidParameter "Absorbance cannot be negative")
      else .ok (a / (l * c))
    | _, _, _ =>
      .error (.missingParameter
        "Absorbance, path length, and concentration are required to calculate epsilon")
  | .PATH_LENGTH =>
    match params.absorbance, params.epsilon_Minv_cm, params.conc_M with
    | some a, some e, some c =>
      if e ≤ 0 ∨ c ≤ 0 then
        .error (.invalidParameter "Epsilon and concentration must be positive")
      else if a < 0 then
        .error (.invalidParameter "Absorbance cannot be negative")
      else .ok (a / (e * c))
    | _, _, _ =>
      .error (.missingParameter
        "Absorbance, epsilon, and concentration are required to calculate path length")

/-- Errors raised by `linear_regression`, one constructor per raise site
(beer_lambert.py lines 112, 120, 123, 136), with the exact message. -/
inductive RegressionError where
  | insufficientData (msg : String)
  | negativeValues (msg : String)
  | degenerateX (msg : String)
  | zeroDenominator (msg : String)
deriving DecidableEq

/-- Embedding of `np.mean` of a list of reals. -/
noncomputable def npMean (l : List ℝ) : ℝ := l.sum / l.length

/-- Embedding of `np.sum((x - np.mean(x)) * (y - np.mean(y)))`: the numerator of the
least-squares slope. -/
noncomputable def devProdSum (x y : List ℝ) : ℝ :=
  (List.zipWith (fun a b => (a - npMean x) * (b - npMean y)) x y).sum

/-- Embedding of `np.sum((x - np.mean(x)) ** 2)`: the denominator of the least-squares
slope. -/
noncomputable def devSqSum (x : List ℝ) : ℝ :=
  (x.map (fun a => (a - npMean x) ^ 2)).sum

/-- The residual sum of squares `ss_res` of the least-squares fit of `y`
on `x` as computed by `linear_regression` (sum of squared differences
between `y` and the fitted line evaluated at `x`). -/
noncomputable def regressionSsRes (x y : List ℝ) : ℝ :=
  let slope := devProdSum x y / devSqSum x
  let intercept := npMean y - slope * npMean x
  (List.zipWith (fun a b => (a - b) ^ 2) y (x.map (fun v => slope * v + intercept))).sum

open Classical

/-- The regression result record prescribed by the spec (§4.3): slope =
Σ(x−x̄)(y−ȳ)/Σ(x−x̄)², intercept = ȳ − slope·x̄, R² = 1 − SS_res/SS_tot
with the documented 0 default when SS_tot = 0, std error of the slope =
sqrt((SS_res/(n−2))/Σ(x−x̄)²) with the documented 0 default when n = 2,
and derived ε = slope/pathLength when a positive path length is given. -/
noncomputable def olsSpecResult (pts : List DataPoint) (pl : Option ℝ) :
    LinearRegressionResult :=
  let x := pts.map (·.concentration)
  let y := pts.map (·.absorbance)
  let slope := devProdSum x y / devSqSum x
  let intercept := npMean y - slope * npMean x
  { slope := slope
    intercept := intercept
    r_squared := if devSqSum y ≠ 0 then 1 - regressionSsRes x y / devSqSum y else 0
    std_error := if 2 < pts.length then
        Real.sqrt (regressionSsRes x y / ((pts.length : ℝ) - 2) / devSqSum x)
      else 0
    epsilon := match pl with
      | some p => if 0 < p then some (slope / p) else none
      | none => none }

/-- Embedding of `linear_regression(data_points, path_length)` of beer_lambert.py,
lines 94-164.  `len(np.unique(x)) < 2` is modelled by its meaning: every
two entries of `x` are equal (equivalent for every list, as `np.unique`
collects the distinct values).  Python's
`slope / path_length if path_length and path_length > 0 else None`
yields `None` when `path_length` is `None`, `0` (falsy) or negative. -/
noncomputable def linear_regression (data_points : List DataPoint)
    (path_length : Option ℝ := none) :
    Except RegressionError LinearRegressionResult :=
  if data_points.length < 2 then
    .error (.insufficientData "At least 2 data points are required for linear regression")
  else
    let x := data_points.map (·.concentration)
    let y := data_points.map (·.absorbance)
    if (∃ v ∈ x, v < 0) ∨ (∃ v ∈ y, v < 0) then
      .error (.negativeValues "Concentrations and absorbances must be non-negative")
    else if ∀ a ∈ x, ∀ b ∈ x, a = b then
      .error (.degenerateX "Need at least 2 different concentration values")
    else
      let n := data_points.length
      let numerator := devProdSum x y
      let denominator := devSqSum x
      if denominator = 0 then
        .error (.zeroDenominator "Cannot perform regression: all x values are identical")
      else
        let slope := numerator / denominator
        let intercept := npMean y - slope * npMean x
        let y_pred := x.map (fun v => slope * v + intercept)
        let ss_res := (List.zipWith (fun a b => (a - b) ^ 2) y y_pred).sum
        let ss_tot := (y.map (fun v => (v - npMean y) ^ 2)).sum
        let r_squared := if ss_tot ≠ 0 then 1 - ss_res / ss_tot else 0
        let std_error := if 2 < n then Real.sqrt ((ss_res / ((n : ℝ) - 2)) / denominator) else 0
        let epsilon : Option ℝ :=
          match path_length with
          | some p => if 0 < p then some (slope / p) else none
          | none => none
        .ok { slope := slope, intercept := intercept, r_squared := r_squared,
              std_error := std_error, epsilon := epsilon }

/-- Embedding of `np.linspace(start, stop, num)`: `num` evenly spaced samples over
`[start, stop]` inclusive (the one-sample case returns `[start]`). -/
noncomputable def linspace (start stop : ℝ) (num : ℕ) : List ℝ :=
  if num = 1 then [start]
  else (List.range num).map
    (fun i : ℕ => start + (stop - start) * (i : ℝ) / ((num : ℝ) - 1))

/-- Embedding of `generate_standard_curve_points(epsilon, path_length, max_concentration,
num_points)` of beer_lambert.py, lines 166-187. -/
noncomputable def generate_standard_curve_points (epsilon path_length
    max_concentration : ℝ) (num_points : ℕ := 20) : List DataPoint :=
  (linspace 0 max_concentration num_points).map
    (fun conc => { concentration := conc, absorbance := epsilon * path_length * conc })

end BeerLambertDefs

section ThermodynamicsDefs

/-- Embedding of `ThermodynamicsMode` enum of thermodynamics.py. -/
inductive ThermodynamicsMode where
  | GIBBS_FREE_ENERGY
  | ENTHALPY
  | ENTROPY
  | TEMPERATURE
  | EQUILIBRIUM_CONSTANT
  | GIBBS_FROM_KEQR
deriving DecidableEq

/-- Embedding of `ThermodynamicsInput` dataclass: the six optional quantities, before
`__post_init__` runs. -/
structure ThermodynamicsInput where
  delta_G_kJ_mol : Option ℝ := none
  delta_H_kJ_mol : Option ℝ := none
  delta_S_J_mol_K : Option ℝ := none
  temperature_K : Option ℝ := none
  temperature_C : Option ℝ := none
  equilibrium_constant : Option ℝ := none

/-- Embedding of `ThermodynamicsInput.__post_init__` (thermodynamics.py lines 26-29):
derive Kelvin from Celsius when only Celsius is given.  The dataclass runs
this on construction, so a constructed record is `postInit` of its fields.
The `input_parameters` echo dict of the result is display-only string
formatting and is not modelled. -/
def ThermodynamicsInput.postInit (p : ThermodynamicsInput) : ThermodynamicsInput :=
  match p.temperature_C, p.temperature_K with
  | some c, none => { p with temperature_K := some (c + 273.15) }
  | _, _ => p

/-- Embedding of `ThermodynamicsResult` dataclass (without the display-only
`input_parameters` string dict). -/
structure ThermodynamicsResult where
  calculated_value : ℝ
  calculation_mode : ThermodynamicsMode
  units : String
  equation_used : String

/-- Embedding of `R_GAS_CONSTANT = 8.314` J/(mol·K). -/
noncomputable def R_GAS_CONSTANT : ℝ := 8.314

/-- The per-mode presence checks of `_validate_thermodynamics_input`
(thermodynamics.py lines 84-106). -/
noncomputable def modePresenceCheck (params : ThermodynamicsInput)
    (mode : ThermodynamicsMode) : Except String Unit :=
  match mode with
  | .GIBBS_FREE_ENERGY =>
    if params.delta_H_kJ_mol = none ∨ params.delta_S_J_mol_K = none ∨
        params.temperature_K = none then
      .error "ΔG calculation requires ΔH, ΔS, and T"
    else .ok ()
  | .ENTHALPY =>
    if params.delta_G_kJ_mol = none ∨ params.delta_S_J_mol_K = none ∨
        params.temperature_K = none then
      .error "ΔH calculation requires ΔG, ΔS, and T"
    else .ok ()
  | .ENTROPY =>
    if params.delta_G_kJ_mol = none ∨ params.delta_H_kJ_mol = none ∨
        params.temperature_K = none then
      .error "ΔS calculation requires ΔG, ΔH, and T"
    else .ok ()
  | .TEMPERATURE =>
    if params.delta_G_kJ_mol = none ∨ params.delta_H_kJ_mol = none ∨
        params.delta_S_J_mol_K = none then
      .error "T calculation requires ΔG, ΔH, and ΔS"
    else .ok ()
  | .EQUILIBRIUM_CONSTANT =>
    if params.delta_G_kJ_mol = none ∨ params.temperature_K = none then
      .error "K calculation requires ΔG and T"
    else .ok ()
  | .GIBBS_FROM_KEQR =>
    if params.equilibrium_constant = none ∨ params.temperature_K = none then
      .error "ΔG from K calculation requires K and T"
    else .ok ()

/-- Embedding of `_validate_thermodynamics_input(params, mode)` (thermodynamics.py
lines 81-114): mode presence checks, then the cross-mode T > 0 and K > 0
checks, applied whenever the quantity is present. -/
noncomputable def validate_thermodynamics_input (params : ThermodynamicsInput)
    (mode : ThermodynamicsMode) : Except String Unit :=
  match modePresenceCheck params mode with
  | .error e => .error e
  | .ok _ =>
    if ∃ t, params.temperature_K = some t ∧ t ≤ 0 then
      .error "Temperature must be positive (> 0 K)"
    else if ∃ k, params.equilibrium_constant = some k ∧ k ≤ 0 then
      .error "Equilibrium constant must be positive"
    else .ok ()

/-- Embedding of `_calculate_gibbs_free_energy` (thermodynamics.py lines 116-131):
ΔG = ΔH − T·(ΔS/1000).  The `none` branch is unreachable after
validation (Python would fail on the missing operand there). -/
noncomputable def calculate_gibbs_free_energy (params : ThermodynamicsInput) :
    Except String ThermodynamicsResult :=
  match params.delta_H_kJ_mol, params.delta_S_J_mol_K, params.temperature_K with
  | some dH, some dS, some t =>
    .ok { calculated_value := dH - t * (dS / 1000),
          calculation_mode := .GIBBS_FREE_ENERGY,
          units := "kJ/mol", equation_used := "ΔG = ΔH - TΔS" }
  | _, _, _ => .error "ΔG calculation requires ΔH, ΔS, and T"

/-- Embedding of `_calculate_enthalpy` (thermodynamics.py lines 133-148):
ΔH = ΔG + T·(ΔS/1000). -/
noncomputable def calculate_enthalpy (params : ThermodynamicsInput) :
    Except String ThermodynamicsResult :=
  match params.delta_G_kJ_mol, params.delta_S_J_mol_K, params.temperature_K with
  | some dG, some dS, some t =>
    .ok { calculated_value := dG + t * (dS / 1000),
          calculation_mode := .ENTHALPY,
          units := "kJ/mol", equation_used := "ΔH = ΔG + TΔS" }
  | _, _, _ => .error "ΔH calculation requires ΔG, ΔS, and T"

/-- Embedding of `_calculate_entropy` (thermodynamics.py lines 150-165):
ΔS = 1000·(ΔH − ΔG)/T. -/
noncomputable def calculate_entropy (params : ThermodynamicsInput) :
    Except String ThermodynamicsResult :=
  match params.delta_G_kJ_mol, params.delta_H_kJ_mol, params.temperature_K with
  | some dG, some dH, some t =>
    .ok { calculated_value := (dH - dG) / t * 1000,
          calculation_mode := .ENTROPY,
          units := "J/mol·K", equation_used := "ΔS = (ΔH - ΔG) / T" }
  | _, _, _ => .error "ΔS calculation requires ΔG, ΔH, and T"

/-- Embedding of `_calculate_temperature` (thermodynamics.py lines 167-188):
T = (ΔH − ΔG)/(ΔS/1000), guarded by ΔS ≠ 0 and a positivity check of the
computed temperature. -/
noncomputable def calculate_temperature (params : ThermodynamicsInput) :
    Except String ThermodynamicsResult :=
  match params.delta_G_kJ_mol, params.delta_H_kJ_mol, params.delta_S_J_mol_K with
  | some dG, some dH, some dS =>
    if dS = 0 then
      .error "Cannot calculate temperature when ΔS = 0"
    else
      let temperature := (dH - dG) / (dS / 1000)
      if temperature ≤ 0 then
        .error "Calculated temperature is not physically meaningful (≤ 0 K)"
      else
        .ok { calculated_value := temperature,
              calculation_mode := .TEMPERATURE,
              units := "K", equation_used := "T = (ΔH - ΔG) / ΔS" }
  | _, _, _ => .error "T calculation requires ΔG, ΔH, and ΔS"

/-- Embedding of `_calculate_equilibrium_constant` (thermodynamics.py lines 190-208):
K = exp(−(ΔG·1000)/(R·T)). -/
noncomputable def calculate_equilibrium_constant (params : ThermodynamicsInput) :
    Except String ThermodynamicsResult :=
  match params.delta_G_kJ_mol, params.temperature_K with
  | some dG, some t =>
    .ok { calculated_value := Real.exp (-(dG * 1000) / (R_GAS_CONSTANT * t)),
          calculation_mode := .EQUILIBRIUM_CONSTANT,
          units := "dimensionless", equation_used := "K = exp(-ΔG/RT)" }
  | _, _ => .error "K calculation requires ΔG and T"

/-- Embedding of `_calculate_gibbs_from_keq` (thermodynamics.py lines 210-225):
ΔG = −R·T·ln(K)/1000. -/
noncomputable def calculate_gibbs_from_keq (params : ThermodynamicsInput) :
    Except String ThermodynamicsResult :=
  match params.equilibrium_constant, params.temperature_K with
  | some k, some t =>
    .ok { calculated_value := -R_GAS_CONSTANT * t * Real.log k / 1000,
          calculation_mode := .GIBBS_FROM_KEQR,
          units := "kJ/mol", equation_used := "ΔG = -RT ln(K)" }
  | _, _ => .error "ΔG from K calculation requires K and T"

/-- Embedding of `calculate_thermodynamics(params, mode)` (thermodynamics.py lines
43-79): validate, then dispatch on the mode. -/
noncomputable def calculate_thermodynamics (params : ThermodynamicsInput)
    (mode : ThermodynamicsMode) : Except String ThermodynamicsResult :=
  match validate_thermodynamics_input params mode with
  | .error e => .error e
  | .ok _ =>
    match mode with
    | .GIBBS_FREE_ENERGY => calculate_gibbs_free_energy params
    | .ENTHALPY => calculate_enthalpy params
    | .ENTROPY => calculate_entropy params
    | .TEMPERATURE => calculate_temperature params
    | .EQUILIBRIUM_CONSTANT => calculate_equilibrium_constant params
    | .GIBBS_FROM_KEQR => calculate_gibbs_from_keq params

end ThermodynamicsDefs

section VanHoffDefs

/-- Embedding of `np.polyfit(x, y, 1)` as used by `generate_van_hoff_plot`: the
degree-1 least-squares fit, modelled by its closed-form normal-equation
solution (the unique least-squares solution whenever `x` has at least two
distinct values), returned as (slope, intercept). -/
noncomputable def polyfit1 (x y : List ℝ) : ℝ × ℝ :=
  (devProdSum x y / devSqSum x,
   npMean y - devProdSum x y / devSqSum x * npMean x)

/-- Minimum of a nonempty list, `np.min`; 0 on the empty list
(where NumPy would fail — unreachable at the call site). -/
noncomputable def listMin : List ℝ → ℝ
  | [] => 0
  | h :: t => t.foldl min h

/-- Maximum of a nonempty list, `np.max`; 0 on the empty list. -/
noncomputable def listMax : List ℝ → ℝ
  | [] => 0
  | h :: t => t.foldl max h

/-- Embedding of `_calculate_r_squared(y_actual, y_predicted)` of thermodynamics_vm.py,
lines 167-171. -/
noncomputable def calculate_r_squared (y_actual y_predicted : List ℝ) : ℝ :=
  let ss_res := (List.zipWith (fun a b => (a - b) ^ 2) y_actual y_predicted).sum
  let ss_tot := (y_actual.map (fun v => (v - npMean y_actual) ^ 2)).sum
  if ss_tot ≠ 0 then 1 - ss_res / ss_tot else 0

/-- The computational payload of `generate_van_hoff_plot` (the plot_data
dict's regression line and results). -/
structure VanHoffPlotData where
  data_points : List (ℝ × ℝ)
  regression_line : List (ℝ × ℝ)
  slope : ℝ
  intercept : ℝ
  delta_H : ℝ
  delta_S : ℝ
  r_squared : ℝ

/-- Embedding of `generate_van_hoff_plot(data_points)` of thermodynamics_vm.py, lines
109-165: the computation performed inside the `try` block (a raise is
caught there and reported through the error signal; it is the `.error`
case here).  Input points are (temperature_K, equilibrium_constant). -/
noncomputable def generate_van_hoff_plot (data_points : List (ℝ × ℝ)) :
    Except String VanHoffPlotData :=
  if data_points.length < 2 then
    .error "At least 2 data points required for van't Hoff plot"
  else if ∃ p ∈ data_points, p.1 ≤ 0 ∨ p.2 ≤ 0 then
    .error "Temperature and equilibrium constant must be positive"
  else
    let inv_T := data_points.map (fun p => 1 / p.1)
    let ln_K := data_points.map (fun p => Real.log p.2)
    let slope := (polyfit1 inv_T ln_K).1
    let intercept := (polyfit1 inv_T ln_K).2
    let delta_H := -slope * 8.314 / 1000
    let delta_S := intercept * 8.314
    let inv_T_line := linspace (listMin inv_T) (listMax inv_T) 100
    .ok { data_points := List.zip inv_T ln_K,
          regression_line := inv_T_line.map (fun v => (v, slope * v + intercept)),
          slope := slope, intercept := intercept,
          delta_H := delta_H, delta_S := delta_S,
          r_squared := calculate_r_squared ln_K
            (inv_T.map (fun v => slope * v + intercept)) }

end VanHoffDefs

/-- Whether an `Except` computation succeeded (did not raise). -/
def exOk {ε α : Type _} : Except ε α → Bool
  | .ok _ => true
  | .error _ => false

section BeerLambertTheorems

/-- C4: for every Beer-Lambert mode, presence of all required quantities is
checked first (a missing one yields the missing-parameter error even when a
supplied quantity violates its domain); only then are the domain checks run
(required ε, l, c strictly positive, required A non-negative, failing with
the invalid-parameter error); and with all required inputs in their domains
the result is the exact algebraic inversion of A = ε·l·c for the mode. -/
theorem beer_lambert_validation_order_and_formulas :
    (∀ params : BeerLambertInput,
      params.epsilon_Minv_cm = none ∨ params.path_cm = none ∨ params.conc_M = none →
      calculate_beer_lambert params .ABSORBANCE = .error (.missingParameter
        "Epsilon, path length, and concentration are required to calculate absorbance")) ∧
    (∀ e l c : ℝ, ∀ ab : Option ℝ, e ≤ 0 ∨ l ≤ 0 ∨ c ≤ 0 →
      calculate_beer_lambert ⟨some e, some l, some c, ab⟩ .ABSORBANCE =
        .error (.invalidParameter "All parameters must be positive")) ∧
    (∀ e l c : ℝ, ∀ ab : Option ℝ, 0 < e → 0 < l → 0 < c →
      calculate_beer_lambert ⟨some e, some l, some c, ab⟩ .ABSORBANCE = .ok (e * l * c)) ∧
    (∀ params : BeerLambertInput,
      params.absorbance = none ∨ params.epsilon_Minv_cm = none ∨ params.path_cm = none →
      calculate_beer_lambert params .CONCENTRATION = .error (.missingParameter
        "Absorbance, epsilon, and path length are required to calculate concentration")) ∧
    (∀ e l a : ℝ, ∀ cm : Option ℝ, e ≤ 0 ∨ l ≤ 0 →
      calculate_beer_lambert ⟨some e, some l, cm, some a⟩ .CONCENTRATION =
        .error (.invalidParameter "Epsilon and path length must be positive")) ∧
    (∀ e l a : ℝ, ∀ cm : Option ℝ, 0 < e → 0 < l → a < 0 →
      calculate_beer_lambert ⟨some e, some l, cm, some a⟩ .CONCENTRATION =
        .error (.invalidParameter "Absorbance cannot be negative")) ∧
    (∀ e l a : ℝ, ∀ cm : Option ℝ, 0 < e → 0 < l → 0 ≤ a →
      calculate_beer_lambert ⟨some e, some l, cm, some a⟩ .CONCENTRATION =
        .ok (a / (e * l))) ∧
    (∀ params : BeerLambertInput,
      params.absorbance = none ∨ params.path_cm = none ∨ params.conc_M = none →
      calculate_beer_lambert params .EPSILON = .error (.missingParameter
        "Absorbance, path length, and concentration are required to calculate epsilon")) ∧
    (∀ l c a : ℝ, ∀ em : Option ℝ, l ≤ 0 ∨ c ≤ 0 →
      calculate_beer_lambert ⟨em, some l, some c, some a⟩ .EPSILON =
        .error (.invalidParameter "Path length and concentration must be positive")) ∧
    (∀ l c a : ℝ, ∀ em : Option ℝ, 0 < l → 0 < c → a < 0 →
      calculate_beer_lambert ⟨em, some l, some c, some a⟩ .EPSILON =
        .error (.invalidParameter "Absorbance cannot be negative")) ∧
    (∀ l c a : ℝ, ∀ em : Option ℝ, 0 < l → 0 < c → 0 ≤ a →
      calculate_beer_lambert ⟨em, some l, some c, some a⟩ .EPSILON =
        .ok (a / (l * c))) ∧
    (∀ params : BeerLambertInput,
      params.absorbance = none ∨ params.epsilon_Minv_cm = none ∨ params.conc_M = none →
      calculate_beer_lambert params .PATH_LENGTH = .error (.missingParameter
        "Absorbance, epsilon, and concentration are required to calculate path length")) ∧
    (∀ e c a : ℝ, ∀ pc : Option ℝ, e ≤ 0 ∨ c ≤ 0 →
      calculate_beer_lambert ⟨some e, pc, some c, some a⟩ .PATH_LENGTH =
        .error (.invalidParameter "Epsilon and concentration must be positive")) ∧
    (∀ e c a : ℝ, ∀ pc : Option ℝ, 0 < e → 0 < c → a < 0 →
      calculate_beer_lambert ⟨some e, pc, some c, some a⟩ .PATH_LENGTH =
        .error (.invalidParameter "Absorbance cannot be negative")) ∧
    (∀ e c a : ℝ, ∀ pc : Option ℝ, 0 < e → 0 < c → 0 ≤ a →
      calculate_beer_lambert ⟨some e, pc, some c, some a⟩ .PATH_LENGTH =
        .ok (a / (e * c))) := by
  refine ⟨?_, ?_, ?_, ?_, ?_, ?_, ?_, ?_, ?_, ?_, ?_, ?_, ?_, ?_, ?_⟩
  · rintro ⟨e, l, c, a⟩ h
    rcases e with _ | e <;> rcases l with _ | l <;> rcases c with _ | c <;>
      simp_all [calculate_beer_lambert]
  · intro e l c ab h
    simp only [calculate_beer_lambert]
    rw [if_pos h]
  · intro e l c ab he hl hc
    simp only [calculate_beer_lambert]
    rw [if_neg (by push_neg; exact ⟨he, hl, hc⟩)]
  · rintro ⟨e, l, c, a⟩ h
    rcases e with _ | e <;> rcases l with _ | l <;> rcases a with _ | a <;>
      simp_all [calculate_beer_lambert]
  · intro e l a cm h
    simp only [calculate_beer_lambert]
    rw [if_pos h]
  · intro e l a cm he hl ha
    simp only [calculate_beer_lambert]
    rw [if_neg (by push_neg; exact ⟨he, hl⟩), if_pos ha]
  · intro e l a cm he hl ha
    simp only [calculate_beer_lambert]
    rw [if_neg (by push_neg; exact ⟨he, hl⟩), if_neg (by push_neg; exact ha)]
  · rintro ⟨e, l, c, a⟩ h
    rcases l with _ | l <;> rcases c with _ | c <;> rcases a with _ | a <;>
      simp_all [calculate_beer_lambert]
  · intro l c a em h
    simp only [calculate_beer_lambert]
    rw [if_pos h]
  · intro l c a em hl hc ha
    simp only [calculate_beer_lambert]
    rw [if_neg (by push_neg; exact ⟨hl, hc⟩), if_pos ha]
  · intro l c a em hl hc ha
    simp only [calculate_beer_lambert]
    rw [if_neg (by push_neg; exact ⟨hl, hc⟩), if_neg (by push_neg; exact ha)]
  · rintro ⟨e, l, c, a⟩ h
    rcases e with _ | e <;> rcases c with _ | c <;> rcases a with _ | a <;>
      simp_all [calculate_beer_lambert]
  · intro e c a pc h
    simp only [calculate_beer_lambert]
    rw [if_pos h]
  · intro e c a pc he hc ha
    simp only [calculate_beer_lambert]
    rw [if_neg (by push_neg; exact ⟨he, hc⟩), if_pos ha]
  · intro e c a pc he hc ha
    simp only [calculate_beer_lambert]
    rw [if_neg (by push_neg; exact ⟨he, hc⟩), if_neg (by push_neg; exact ha)]

/-- Witness for C4: concrete instances of the missing-parameter branch (with
another supplied quantity violating its domain), the invalid-parameter
branch, and the formula of each mode. -/
theorem beer_lambert_validation_order_and_formulas_witness :
    calculate_beer_lambert ⟨none, some (-1), some 1, some 1⟩ .ABSORBANCE =
      .error (.missingParameter
        "Epsilon, path length, and concentration are required to calculate absorbance") ∧
    calculate_beer_lambert ⟨some 55000, some 1, some (1 / 1000000), none⟩ .ABSORBANCE =
      .ok (55000 * 1 * (1 / 1000000)) ∧
    calculate_beer_lambert ⟨some (-2), some 1, none, some 1⟩ .CONCENTRATION =
      .error (.invalidParameter "Epsilon and path length must be positive") ∧
    calculate_beer_lambert ⟨some 55000, some 1, none, some 0.055⟩ .CONCENTRATION =
      .ok (0.055 / (55000 * 1)) ∧
    calculate_beer_lambert ⟨none, some 1, some 2, some (-3)⟩ .EPSILON =
      .error (.invalidParameter "Absorbance cannot be negative") ∧
    calculate_beer_lambert ⟨none, some 1, some 2, some 3⟩ .EPSILON = .ok (3 / (1 * 2)) ∧
    calculate_beer_lambert ⟨some 4, none, some 2, some 3⟩ .PATH_LENGTH = .ok (3 / (4 * 2)) := by
  obtain ⟨h1, h2, h3, h4, h5, h6, h7, h8, h9, h10, h11, h12, h13, h14, h15⟩ :=
    beer_lambert_validation_order_and_formulas
  exact ⟨h1 _ (by simp), h3 _ _ _ _ (by norm_num) (by norm_num) (by norm_num),
    h5 _ _ _ _ (by norm_num), h7 _ _ _ _ (by norm_num) (by norm_num) (by norm_num),
    h10 _ _ _ _ (by norm_num) (by norm_num) (by norm_num),
    h11 _ _ _ _ (by norm_num) (by norm_num) (by norm_num),
    h15 _ _ _ _ (by norm_num) (by norm_num) (by norm_num)⟩

end BeerLambertTheorems

section ThermodynamicsTheorems

lemma validate_thermodynamics_input_ok (params : ThermodynamicsInput)
    (mode : ThermodynamicsMode)
    (hpres : modePresenceCheck params mode = .ok ())
    (hT : ∀ t, params.temperature_K = some t → 0 < t)
    (hK : ∀ k, params.equilibrium_constant = some k → 0 < k) :
    validate_thermodynamics_input params mode = .ok () := by
  unfold validate_thermodynamics_input
  rw [hpres]
  rw [if_neg, if_neg]
  · rintro ⟨k, hk, hkle⟩
    exact absurd (hK k hk) (not_lt.mpr hkle)
  · rintro ⟨t, htk, htle⟩
    exact absurd (hT t htk) (not_lt.mpr htle)

/-- C3: in every mode, a present Kelvin temperature ≤ 0 or a present
equilibrium constant ≤ 0 makes `calculate_thermodynamics` fail (return a
validation error, never a computed result), even when the offending
quantity is not required by the selected mode. -/
theorem thermo_cross_mode_validation (params : ThermodynamicsInput)
    (mode : ThermodynamicsMode)
    (h : (∃ t, params.temperature_K = some t ∧ t ≤ 0) ∨
         (∃ k, params.equilibrium_constant = some k ∧ k ≤ 0)) :
    exOk (calculate_thermodynamics params mode) = false := by
  rcases hm : modePresenceCheck params mode with e | u
  · simp only [calculate_thermodynamics, validate_thermodynamics_input, hm]
    rfl
  · simp only [calculate_thermodynamics, validate_thermodynamics_input, hm]
    split_ifs with h1 h2
    · rfl
    · rfl
    · rcases h with h | h
      · exact absurd h h1
      · exact absurd h h2

/-- Witness for C3: GibbsFreeEnergy mode with valid ΔH, ΔS, T but a
supplied K = −1 (not required by the mode) still fails. -/
theorem thermo_cross_mode_validation_witness :
    exOk (calculate_thermodynamics
      ⟨none, some (-50), some (-100), some 298.15, none, some (-1)⟩
      .GIBBS_FREE_ENERGY) = false :=
  thermo_cross_mode_validation _ _ (Or.inr ⟨-1, rfl, by norm_num⟩)

/-- C5: EquilibriumConstant and GibbsFromK modes are mutual inverses over
the reals: for every ΔG and T > 0, EquilibriumConstant mode on {ΔG, T}
returns K = exp(−(ΔG·1000)/(8.314·T)), and GibbsFromK mode on {that K, T}
returns exactly ΔG. -/
theorem equilibrium_gibbs_mutual_inverse (dG t : ℝ) (ht : 0 < t) :
    calculate_thermodynamics ⟨some dG, none, none, some t, none, none⟩
      .EQUILIBRIUM_CONSTANT =
      .ok { calculated_value := Real.exp (-(dG * 1000) / (8.314 * t)),
            calculation_mode := .EQUILIBRIUM_CONSTANT,
            units := "dimensionless", equation_used := "K = exp(-ΔG/RT)" } ∧
    calculate_thermodynamics
      ⟨none, none, none, some t, none,
        some (Real.exp (-(dG * 1000) / (8.314 * t)))⟩ .GIBBS_FROM_KEQR =
      .ok { calculated_value := dG,
            calculation_mode := .GIBBS_FROM_KEQR,
            units := "kJ/mol", equation_used := "ΔG = -RT ln(K)" } := by
  have ht' : (t : ℝ) ≠ 0 := ne_of_gt ht
  constructor
  · have hval : validate_thermodynamics_input
        ⟨some dG, none, none, some t, none, none⟩ .EQUILIBRIUM_CONSTANT = .ok () := by
      refine validate_thermodynamics_input_ok _ _ (by simp [modePresenceCheck]) ?_ (by simp)
      intro t' h
      injection h with h
      exact h ▸ ht
    simp only [calculate_thermodynamics, hval, calculate_equilibrium_constant,
      R_GAS_CONSTANT]
  · have hval : validate_thermodynamics_input
        ⟨none, none, none, some t, none,
          some (Real.exp (-(dG * 1000) / (8.314 * t)))⟩ .GIBBS_FROM_KEQR = .ok () := by
      refine validate_thermodynamics_input_ok _ _ (by simp [modePresenceCheck]) ?_ ?_
      · intro t' h
        injection h with h
        exact h ▸ ht
      · intro k h
        injection h with h
        exact h ▸ Real.exp_pos _
    simp only [calculate_thermodynamics, hval, calculate_gibbs_from_keq,
      R_GAS_CONSTANT, Real.log_exp, Except.ok.injEq, ThermodynamicsResult.mk.injEq]
    refine ⟨?_, trivial, trivial, trivial⟩
    field_simp

/-- Witness for C5 at ΔG = −10 kJ/mol, T = 298.15 K. -/
theorem equilibrium_gibbs_mutual_inverse_witness :
    calculate_thermodynamics ⟨some (-10), none, none, some 298.15, none, none⟩
      .EQUILIBRIUM_CONSTANT =
      .ok { calculated_value := Real.exp (-(-10 * 1000) / (8.314 * 298.15)),
            calculation_mode := .EQUILIBRIUM_CONSTANT,
            units := "dimensionless", equation_used := "K = exp(-ΔG/RT)" } ∧
    calculate_thermodynamics
      ⟨none, none, none, some 298.15, none,
        some (Real.exp (-(-10 * 1000) / (8.314 * 298.15)))⟩ .GIBBS_FROM_KEQR =
      .ok { calculated_value := -10,
            calculation_mode := .GIBBS_FROM_KEQR,
            units := "kJ/mol", equation_used := "ΔG = -RT ln(K)" } :=
  equilibrium_gibbs_mutual_inverse (-10) 298.15 (by norm_num)

/-- C6: in Temperature mode with ΔG, ΔH, ΔS all present, the solver
returns a validation error (never a division result) when ΔS = 0, returns
a validation error when the computed T = (ΔH − ΔG)/(ΔS/1000) is ≤ 0, and
otherwise returns exactly that T. -/
theorem temperature_mode_guards (dG dH dS : ℝ) :
    (dS = 0 →
      calculate_thermodynamics ⟨some dG, some dH, some dS, none, none, none⟩
        .TEMPERATURE = .error "Cannot calculate temperature when ΔS = 0") ∧
    (dS ≠ 0 → (dH - dG) / (dS / 1000) ≤ 0 →
      calculate_thermodynamics ⟨some dG, some dH, some dS, none, none, none⟩
        .TEMPERATURE =
        .error "Calculated temperature is not physically meaningful (≤ 0 K)") ∧
    (dS ≠ 0 → 0 < (dH - dG) / (dS / 1000) →
      calculate_thermodynamics ⟨some dG, some dH, some dS, none, none, none⟩
        .TEMPERATURE =
        .ok { calculated_value := (dH - dG) / (dS / 1000),
              calculation_mode := .TEMPERATURE,
              units := "K", equation_used := "T = (ΔH - ΔG) / ΔS" }) := by
  have hval : validate_thermodynamics_input
      ⟨some dG, some dH, some dS, none, none, none⟩ .TEMPERATURE = .ok () :=
    validate_thermodynamics_input_ok _ _ (by simp [modePresenceCheck])
      (by simp) (by simp)
  refine ⟨?_, ?_, ?_⟩
  · intro hz
    simp only [calculate_thermodynamics, hval, calculate_temperature]
    rw [if_pos hz]
  · intro hz hle
    simp only [calculate_thermodynamics, hval, calculate_temperature]
    rw [if_neg hz, if_pos hle]
  · intro hz hpos
    simp only [calculate_thermodynamics, hval, calculate_temperature]
    rw [if_neg hz, if_neg (not_le.mpr hpos)]

/-- Witness for C6: ΔG = −20.185, ΔH = −50, ΔS = −100 gives
T = (−50 − (−20.185))/(−0.1) = 298.15 > 0; ΔS = 0 and a non-physical
combination both raise. -/
theorem temperature_mode_guards_witness :
    calculate_thermodynamics ⟨some 1, some 2, some 0, none, none, none⟩
      .TEMPERATURE = .error "Cannot calculate temperature when ΔS = 0" ∧
    calculate_thermodynamics ⟨some 1, some 2, some (-1000), none, none, none⟩
      .TEMPERATURE =
      .error "Calculated temperature is not physically meaningful (≤ 0 K)" ∧
    calculate_thermodynamics
      ⟨some (-20.185), some (-50), some (-100), none, none, none⟩ .TEMPERATURE =
      .ok { calculated_value := (-50 - (-20.185)) / (-100 / 1000),
            calculation_mode := .TEMPERATURE,
            units := "K", equation_used := "T = (ΔH - ΔG) / ΔS" } :=
  ⟨(temperature_mode_guards 1 2 0).1 rfl,
   (temperature_mode_guards 1 2 (-1000)).2.1 (by norm_num) (by norm_num),
   (temperature_mode_guards (-20.185) (-50) (-100)).2.2 (by norm_num) (by norm_num)⟩

/-- C7: the input record derives Kelvin from Celsius (K = C + 273.15) when
only Celsius is given; when both are given the Kelvin value is kept
unchanged, and the Celsius value has no effect on the result of any
calculation mode. -/
theorem celsius_kelvin_policy :
    (∀ (dG dH dS keq : Option ℝ) (c : ℝ),
      (ThermodynamicsInput.postInit ⟨dG, dH, dS, none, some c, keq⟩).temperature_K =
        some (c + 273.15)) ∧
    (∀ (dG dH dS keq : Option ℝ) (c k : ℝ),
      (ThermodynamicsInput.postInit ⟨dG, dH, dS, some k, some c, keq⟩).temperature_K =
        some k) ∧
    (∀ (dG dH dS keq : Option ℝ) (c c2 k : ℝ) (mode : ThermodynamicsMode),
      calculate_thermodynamics
        (ThermodynamicsInput.postInit ⟨dG, dH, dS, some k, some c, keq⟩) mode =
      calculate_thermodynamics
        (ThermodynamicsInput.postInit ⟨dG, dH, dS, some k, some c2, keq⟩) mode) := by
  refine ⟨fun dG dH dS keq c => rfl, fun dG dH dS keq c k => rfl, ?_⟩
  intro dG dH dS keq c c2 k mode
  cases mode <;> rfl

end ThermodynamicsTheorems

section CurveTheorems

/-- C8: for every ε, l, maxConcentration and numPoints ≥ 2,
`generate_standard_curve_points` returns exactly numPoints points, the
i-th at concentration i·maxConcentration/(numPoints−1) (equally spaced
from 0 to maxConcentration inclusive) with absorbance ε·l·c; in
particular (ε=1000, l=1, maxConcentration=10⁻³, numPoints=5) yields 5
points, the first (0, 0) and the last (10⁻³, 1). -/
theorem generate_curve_points_spec :
    (∀ (e l maxc : ℝ) (n : ℕ), 2 ≤ n →
      (generate_standard_curve_points e l maxc n).length = n ∧
      ∀ i : ℕ, i < n →
        (generate_standard_curve_points e l maxc n)[i]? =
          some ⟨maxc * i / ((n : ℝ) - 1),
                e * l * (maxc * i / ((n : ℝ) - 1))⟩) ∧
    ((generate_standard_curve_points 1000 1 (1 / 1000) 5).length = 5 ∧
     (generate_standard_curve_points 1000 1 (1 / 1000) 5)[0]? = some ⟨0, 0⟩ ∧
     (generate_standard_curve_points 1000 1 (1 / 1000) 5)[4]? =
       some ⟨1 / 1000, 1⟩) := by
  have key : ∀ (e l maxc : ℝ) (n : ℕ), 2 ≤ n →
      (generate_standard_curve_points e l maxc n).length = n ∧
      ∀ i : ℕ, i < n →
        (generate_standard_curve_points e l maxc n)[i]? =
          some ⟨maxc * i / ((n : ℝ) - 1),
                e * l * (maxc * i / ((n : ℝ) - 1))⟩ := by
    intro e l maxc n hn
    have hn1 : n ≠ 1 := by omega
    constructor
    · unfold generate_standard_curve_points linspace
      rw [if_neg hn1, List.length_map, List.length_map, List.length_range]
    · intro i hi
      unfold generate_standard_curve_points linspace
      rw [if_neg hn1, List.getElem?_map, List.getElem?_map, List.getElem?_range hi]
      simp only [Option.map_some']
      have harith : (0 : ℝ) + (maxc - 0) * (i : ℝ) / ((n : ℝ) - 1) =
          maxc * i / ((n : ℝ) - 1) := by ring
      rw [harith]
  refine ⟨key, (key 1000 1 (1 / 1000) 5 (by norm_num)).1, ?_, ?_⟩
  · have h0 := (key 1000 1 (1 / 1000) 5 (by norm_num)).2 0 (by norm_num)
    rw [h0]
    norm_num
  · have h4 := (key 1000 1 (1 / 1000) 5 (by norm_num)).2 4 (by norm_num)
    rw [h4]
    norm_num [DataPoint.mk.injEq]

/-- Witness for C8: the general statement applied at the concrete curve
(ε=1000, l=1, maxConcentration=10⁻³, numPoints=5). -/
theorem generate_curve_points_spec_witness :
    (generate_standard_curve_points 1000 1 (1 / 1000) 5).length = 5 :=
  (generate_curve_points_spec.1 1000 1 (1 / 1000) 5 (by norm_num)).1

end CurveTheorems

section RegressionTheorems

lemma devSqSum_pos {x : List ℝ} {a b : ℝ} (ha : a ∈ x) (hb : b ∈ x)
    (hab : a ≠ b) : 0 < devSqSum x := by
  unfold devSqSum
  have hnn : ∀ v ∈ x.map (fun w => (w - npMean x) ^ 2), 0 ≤ v := by
    intro v hv
    obtain ⟨w, _, rfl⟩ := List.mem_map.mp hv
    positivity
  rcases (List.sum_nonneg hnn).lt_or_eq with h | h
  · exact h
  · exfalso
    have hza : (a - npMean x) ^ 2 = 0 :=
      List.all_zero_of_le_zero_le_of_sum_eq_zero hnn h.symm
        (List.mem_map_of_mem _ ha)
    have hzb : (b - npMean x) ^ 2 = 0 :=
      List.all_zero_of_le_zero_le_of_sum_eq_zero hnn h.symm
        (List.mem_map_of_mem _ hb)
    have ha' : a = npMean x :=
      sub_eq_zero.mp ((pow_eq_zero_iff (by norm_num)).mp hza)
    have hb' : b = npMean x :=
      sub_eq_zero.mp ((pow_eq_zero_iff (by norm_num)).mp hzb)
    exact hab (ha'.trans hb'.symm)

lemma lr_insufficient (pts : List DataPoint) (pl : Option ℝ)
    (h : pts.length < 2) :
    linear_regression pts pl = .error (.insufficientData
      "At least 2 data points are required for linear regression") := by
  simp only [linear_regression, if_pos h]

lemma lr_negative (pts : List DataPoint) (pl : Option ℝ)
    (hlen : 2 ≤ pts.length)
    (hneg : ∃ p ∈ pts, p.concentration < 0 ∨ p.absorbance < 0) :
    linear_regression pts pl = .error (.negativeValues
      "Concentrations and absorbances must be non-negative") := by
  simp only [linear_regression]
  rw [if_neg (by omega), if_pos]
  obtain ⟨p, hp, h | h⟩ := hneg
  · exact Or.inl ⟨p.concentration, List.mem_map_of_mem _ hp, h⟩
  · exact Or.inr ⟨p.absorbance, List.mem_map_of_mem _ hp, h⟩

lemma lr_degenerate (pts : List DataPoint) (pl : Option ℝ)
    (hlen : 2 ≤ pts.length)
    (hnn : ∀ p ∈ pts, 0 ≤ p.concentration ∧ 0 ≤ p.absorbance)
    (hall : ∀ p ∈ pts, ∀ q ∈ pts, p.concentration = q.concentration) :
    linear_regression pts pl = .error (.degenerateX
      "Need at least 2 different concentration values") := by
  simp only [linear_regression]
  rw [if_neg (by omega), if_neg, if_pos]
  · intro a haa b hbb
    obtain ⟨p, hp, rfl⟩ := List.mem_map.mp haa
    obtain ⟨q, hq, rfl⟩ := List.mem_map.mp hbb
    exact hall p hp q hq
  · rintro (⟨v, hv, hlt⟩ | ⟨v, hv, hlt⟩)
    · obtain ⟨p, hp, rfl⟩ := List.mem_map.mp hv
      exact absurd hlt (not_lt.mpr (hnn p hp).1)
    · obtain ⟨p, hp, rfl⟩ := List.mem_map.mp hv
      exact absurd hlt (not_lt.mpr (hnn p hp).2)

lemma lr_success (pts : List DataPoint) (pl : Option ℝ)
    (hlen : 2 ≤ pts.length)
    (hnn : ∀ p ∈ pts, 0 ≤ p.concentration ∧ 0 ≤ p.absorbance)
    (hdist : ∃ p ∈ pts, ∃ q ∈ pts, p.concentration ≠ q.concentration) :
    linear_regression pts pl = .ok (olsSpecResult pts pl) := by
  obtain ⟨p, hp, q, hq, hpq⟩ := hdist
  simp only [linear_regression]
  rw [if_neg (by omega), if_neg, if_neg, if_neg]
  · rfl
  · exact (devSqSum_pos (List.mem_map_of_mem _ hp)
      (List.mem_map_of_mem _ hq) hpq).ne'
  · intro hall
    exact hpq (hall p.concentration (List.mem_map_of_mem _ hp)
      q.concentration (List.mem_map_of_mem _ hq))
  · rintro (⟨v, hv, hlt⟩ | ⟨v, hv, hlt⟩)
    · obtain ⟨r, hr, rfl⟩ := List.mem_map.mp hv
      exact absurd hlt (not_lt.mpr (hnn r hr).1)
    · obtain ⟨r, hr, rfl⟩ := List.mem_map.mp hv
      exact absurd hlt (not_lt.mpr (hnn r hr).2)

end RegressionTheorems

/-- Counterexample to C1 as stated: {(−1,0),(1,2)} has ≥2 finite points and
two distinct x values, yet `linear_regression` raises the non-negativity
error instead of returning the least-squares fit. -/
theorem linear_regression_formulas_counterexample :
    linear_regression [⟨-1, 0⟩, ⟨1, 2⟩] none =
      .error (.negativeValues "Concentrations and absorbances must be non-negative") :=
  lr_negative _ _ (by norm_num)
    ⟨⟨-1, 0⟩, List.mem_cons_self _ _, Or.inl (by norm_num)⟩

/-- C1 (amended: the input points must in addition be non-negative in both
coordinates): for every list of ≥2 points with non-negative coordinates
and at least two distinct x values, `linear_regression` returns exactly
the record of spec formulas (`olsSpecResult`): slope = Σ(x−x̄)(y−ȳ)/Σ(x−x̄)²,
intercept = ȳ − slope·x̄, R² = 1 − SS_res/SS_tot (0 when SS_tot = 0),
std_error = sqrt((SS_res/(n−2))/Σ(x−x̄)²) (0 when n = 2); in particular on
{(0,0),(1,2),(2,4)} it returns slope 2, intercept 0, R² 1, std_error 0. -/
theorem linear_regression_formulas :
    (∀ (pts : List DataPoint) (pl : Option ℝ), 2 ≤ pts.length →
      (∀ p ∈ pts, 0 ≤ p.concentration ∧ 0 ≤ p.absorbance) →
      (∃ p ∈ pts, ∃ q ∈ pts, p.concentration ≠ q.concentration) →
      linear_regression pts pl = .ok (olsSpecResult pts pl)) ∧
    linear_regression [⟨0, 0⟩, ⟨1, 2⟩, ⟨2, 4⟩] none =
      .ok { slope := 2, intercept := 0, r_squared := 1, std_error := 0,
            epsilon := none } := by
  refine ⟨lr_success, ?_⟩
  rw [lr_success _ none (by norm_num)
    (by norm_num [List.forall_mem_cons])
    ⟨⟨0, 0⟩, List.mem_cons_self _ _, ⟨1, 2⟩, by simp, by norm_num⟩]
  norm_num [olsSpecResult, regressionSsRes, devProdSum, devSqSum, npMean,
    List.zipWith, Real.sqrt_zero, Except.ok.injEq, LinearRegressionResult.mk.injEq]

/-- Witness for C1: the general statement applied to the concrete dataset
{(0,0),(1,2),(2,4)} succeeds. -/
theorem linear_regression_formulas_witness :
    exOk (linear_regression [⟨0, 0⟩, ⟨1, 2⟩, ⟨2, 4⟩] none) = true := by
  rw [linear_regression_formulas.1 [⟨0, 0⟩, ⟨1, 2⟩, ⟨2, 4⟩] none (by norm_num)
    (by norm_num [List.forall_mem_cons])
    ⟨⟨0, 0⟩, List.mem_cons_self _ _, ⟨1, 2⟩, by simp, by norm_num⟩]
  rfl

/-- Counterexample to C9 as stated: {(−1,1),(−1,2)} has ≥2 points with all
x values identical, yet the raised error is the non-negativity error, not
the degenerate-input error the claim requires. -/
theorem linear_regression_error_cases_counterexample :
    linear_regression [⟨-1, 1⟩, ⟨-1, 2⟩] none ≠
      .error (.degenerateX "Need at least 2 different concentration values") ∧
    linear_regression [⟨-1, 1⟩, ⟨-1, 2⟩] none =
      .error (.negativeValues "Concentrations and absorbances must be non-negative") := by
  have h := lr_negative [⟨-1, 1⟩, ⟨-1, 2⟩] none (by norm_num)
    ⟨⟨-1, 1⟩, List.mem_cons_self _ _, Or.inl (by norm_num)⟩
  refine ⟨?_, h⟩
  rw [h]
  simp

/-- C9 (amended: a negative coordinate is rejected before the identical-x
check): `linear_regression` raises an error exactly when fewer than 2
points are given (insufficient-data), else when some coordinate is
negative (non-negativity error), else when all x values are identical
(degenerate-input); on every other input it returns a result. -/
theorem linear_regression_error_cases :
    (∀ (pts : List DataPoint) (pl : Option ℝ), pts.length < 2 →
      linear_regression pts pl = .error (.insufficientData
        "At least 2 data points are required for linear regression")) ∧
    (∀ (pts : List DataPoint) (pl : Option ℝ), 2 ≤ pts.length →
      (∃ p ∈ pts, p.concentration < 0 ∨ p.absorbance < 0) →
      linear_regression pts pl = .error (.negativeValues
        "Concentrations and absorbances must be non-negative")) ∧
    (∀ (pts : List DataPoint) (pl : Option ℝ), 2 ≤ pts.length →
      (∀ p ∈ pts, 0 ≤ p.concentration ∧ 0 ≤ p.absorbance) →
      (∀ p ∈ pts, ∀ q ∈ pts, p.concentration = q.concentration) →
      linear_regression pts pl = .error (.degenerateX
        "Need at least 2 different concentration values")) ∧
    (∀ (pts : List DataPoint) (pl : Option ℝ), 2 ≤ pts.length →
      (∀ p ∈ pts, 0 ≤ p.concentration ∧ 0 ≤ p.absorbance) →
      (∃ p ∈ pts, ∃ q ∈ pts, p.concentration ≠ q.concentration) →
      exOk (linear_regression pts pl) = true) := by
  refine ⟨lr_insufficient, lr_negative, lr_degenerate, ?_⟩
  intro pts pl hlen hnn hdist
  rw [lr_success pts pl hlen hnn hdist]
  rfl

/-- Witness for C9: a one-point list raises insufficient-data, {(1,1),(1,2)}
raises degenerate-input, and a valid dataset succeeds. -/
theorem linear_regression_error_cases_witness :
    linear_regression [⟨1, 1⟩] none = .error (.insufficientData
      "At least 2 data points are required for linear regression") ∧
    linear_regression [⟨1, 1⟩, ⟨1, 2⟩] none = .error (.degenerateX
      "Need at least 2 different concentration values") ∧
    exOk (linear_regression [⟨0, 0⟩, ⟨1, 2⟩] none) = true := by
  obtain ⟨h1, _, h3, h4⟩ := linear_regression_error_cases
  exact ⟨h1 _ none (by norm_num),
    h3 _ none (by norm_num) (by norm_num [List.forall_mem_cons])
      (by norm_num [List.forall_mem_cons]),
    h4 _ none (by norm_num) (by norm_num [List.forall_mem_cons])
      ⟨⟨0, 0⟩, List.mem_cons_self _ _, ⟨1, 2⟩, by simp, by norm_num⟩⟩

/-- C10 (implicit): `linear_regression` rejects any dataset of ≥2 points
containing a strictly negative concentration or absorbance with the
error "Concentrations and absorbances must be non-negative", a
restriction beyond the spec's stated precondition. -/
theorem linear_regression_rejects_negative (pts : List DataPoint)
    (pl : Option ℝ) (hlen : 2 ≤ pts.length)
    (hneg : ∃ p ∈ pts, p.concentration < 0 ∨ p.absorbance < 0) :
    linear_regression pts pl = .error (.negativeValues
      "Concentrations and absorbances must be non-negative") :=
  lr_negative pts pl hlen hneg

/-- Witness for C10 at {(−1,0),(1,2)}. -/
theorem linear_regression_rejects_negative_witness :
    linear_regression [⟨-1, 0⟩, ⟨1, 2⟩] none = .error (.negativeValues
      "Concentrations and absorbances must be non-negative") :=
  linear_regression_rejects_negative _ none (by norm_num)
    ⟨⟨-1, 0⟩, List.mem_cons_self _ _, Or.inl (by norm_num)⟩

section VanHoffTheorems

lemma linspace100_getElem (a b : ℝ) (i : ℕ) (hi : i < 100) :
    (linspace a b 100)[i]? = some (a + (b - a) * i / 99) := by
  unfold linspace
  rw [if_neg (by norm_num), List.getElem?_map, List.getElem?_range hi]
  simp only [Option.map_some']
  norm_num

lemma van_hoff_ok (pts : List (ℝ × ℝ)) (hlen : 2 ≤ pts.length)
    (hpos : ∀ p ∈ pts, 0 < p.1 ∧ 0 < p.2) :
    generate_van_hoff_plot pts = .ok
      { data_points := List.zip (pts.map fun p => 1 / p.1)
          (pts.map fun p => Real.log p.2),
        regression_line := (linspace (listMin (pts.map fun p => 1 / p.1))
          (listMax (pts.map fun p => 1 / p.1)) 100).map
          (fun v => (v, (polyfit1 (pts.map fun p => 1 / p.1)
              (pts.map fun p => Real.log p.2)).1 * v +
            (polyfit1 (pts.map fun p => 1 / p.1)
              (pts.map fun p => Real.log p.2)).2)),
        slope := (polyfit1 (pts.map fun p => 1 / p.1)
          (pts.map fun p => Real.log p.2)).1,
        intercept := (polyfit1 (pts.map fun p => 1 / p.1)
          (pts.map fun p => Real.log p.2)).2,
        delta_H := -(polyfit1 (pts.map fun p => 1 / p.1)
          (pts.map fun p => Real.log p.2)).1 * 8.314 / 1000,
        delta_S := (polyfit1 (pts.map fun p => 1 / p.1)
          (pts.map fun p => Real.log p.2)).2 * 8.314,
        r_squared := calculate_r_squared (pts.map fun p => Real.log p.2)
          ((pts.map fun p => 1 / p.1).map
            (fun v => (polyfit1 (pts.map fun p => 1 / p.1)
                (pts.map fun p => Real.log p.2)).1 * v +
              (polyfit1 (pts.map fun p => 1 / p.1)
                (pts.map fun p => Real.log p.2)).2)) } := by
  simp only [generate_van_hoff_plot]
  rw [if_neg (by omega), if_neg]
  rintro ⟨p, hp, h | h⟩
  · exact absurd h (not_le.mpr (hpos p hp).1)
  · exact absurd h (not_le.mpr (hpos p hp).2)

/-- Counterexample to C2 as stated: the input {(1, e⁻¹), (1/2, e⁻²)} has 2
points, all T > 0 and K > 0 and two distinct T, and the van't Hoff
analysis succeeds — but `linear_regression` applied to the transformed
points (1/T, ln K) raises the non-negativity error (ln K < 0), so the fit
is not "the same fit LinearRegression would produce": LinearRegression
produces none. -/
theorem van_hoff_analysis_counterexample :
    exOk (generate_van_hoff_plot
      [((1 : ℝ), Real.exp (-1)), ((1 : ℝ) / 2, Real.exp (-2))]) = true ∧
    linear_regression ([((1 : ℝ), Real.exp (-1)), ((1 : ℝ) / 2, Real.exp (-2))].map
      (fun p => (⟨1 / p.1, Real.log p.2⟩ : DataPoint))) none =
      .error (.negativeValues "Concentrations and absorbances must be non-negative") := by
  constructor
  · have h := van_hoff_ok [((1 : ℝ), Real.exp (-1)), ((1 : ℝ) / 2, Real.exp (-2))]
      (by norm_num) (by norm_num [List.forall_mem_cons, Real.exp_pos])
    rw [h]
    rfl
  · refine lr_negative _ none (by simp) ?_
    refine ⟨⟨1 / ((1 : ℝ), Real.exp (-1)).1, Real.log ((1 : ℝ), Real.exp (-1)).2⟩,
      List.mem_map_of_mem _ (List.mem_cons_self _ _), Or.inr ?_⟩
    norm_num [Real.log_exp]

/-- C2 (amended: the slope/intercept are the closed-form least-squares fit
of ln K on 1/T computed via polyfit; this coincides with the fit
`linear_regression` produces whenever the transformed points lie in its
accepted domain, i.e. all ln K ≥ 0 — `linear_regression` itself rejects
datasets with negative ln K): for ≥2 points with T, K > 0 and two
distinct T, the analysis returns slope = Σ(x−x̄)(y−ȳ)/Σ(x−x̄)² and
intercept = ȳ − slope·x̄ over x = 1/T, y = ln K, ΔH = −slope·8.314/1000,
ΔS = intercept·8.314, an R² value, and a 100-point regression line whose
first point is at min(1/T) and whose last point is at max(1/T); with
fewer than 2 points, or any T ≤ 0 or K ≤ 0, it fails. -/
theorem van_hoff_analysis_spec :
    (∀ pts : List (ℝ × ℝ), 2 ≤ pts.length →
      (∀ p ∈ pts, 0 < p.1 ∧ 0 < p.2) →
      (∃ p ∈ pts, ∃ q ∈ pts, p.1 ≠ q.1) →
      ∃ d, generate_van_hoff_plot pts = .ok d ∧
        d.slope = devProdSum (pts.map fun p => 1 / p.1)
            (pts.map fun p => Real.log p.2) /
          devSqSum (pts.map fun p => 1 / p.1) ∧
        d.intercept = npMean (pts.map fun p => Real.log p.2) -
          d.slope * npMean (pts.map fun p => 1 / p.1) ∧
        d.delta_H = -d.slope * 8.314 / 1000 ∧
        d.delta_S = d.intercept * 8.314 ∧
        d.r_squared = calculate_r_squared (pts.map fun p => Real.log p.2)
          ((pts.map fun p => 1 / p.1).map fun v => d.slope * v + d.intercept) ∧
        d.regression_line.length = 100 ∧
        d.regression_line[0]? = some (listMin (pts.map fun p => 1 / p.1),
          d.slope * listMin (pts.map fun p => 1 / p.1) + d.intercept) ∧
        d.regression_line[99]? = some (listMax (pts.map fun p => 1 / p.1),
          d.slope * listMax (pts.map fun p => 1 / p.1) + d.intercept)) ∧
    (∀ pts : List (ℝ × ℝ), 2 ≤ pts.length →
      (∀ p ∈ pts, 0 < p.1 ∧ 0 < p.2) →
      (∃ p ∈ pts, ∃ q ∈ pts, p.1 ≠ q.1) →
      (∀ v ∈ pts.map (fun p => Real.log p.2), 0 ≤ v) →
      linear_regression ((List.zip (pts.map fun p => 1 / p.1)
          (pts.map fun p => Real.log p.2)).map
          (fun pr => (⟨pr.1, pr.2⟩ : DataPoint))) none =
        .ok (olsSpecResult ((List.zip (pts.map fun p => 1 / p.1)
          (pts.map fun p => Real.log p.2)).map
          (fun pr => (⟨pr.1, pr.2⟩ : DataPoint))) none) ∧
      (olsSpecResult ((List.zip (pts.map fun p => 1 / p.1)
          (pts.map fun p => Real.log p.2)).map
          (fun pr => (⟨pr.1, pr.2⟩ : DataPoint))) none).slope =
        devProdSum (pts.map fun p => 1 / p.1) (pts.map fun p => Real.log p.2) /
          devSqSum (pts.map fun p => 1 / p.1) ∧
      (olsSpecResult ((List.zip (pts.map fun p => 1 / p.1)
          (pts.map fun p => Real.log p.2)).map
          (fun pr => (⟨pr.1, pr.2⟩ : DataPoint))) none).intercept =
        npMean (pts.map fun p => Real.log p.2) -
          (olsSpecResult ((List.zip (pts.map fun p => 1 / p.1)
            (pts.map fun p => Real.log p.2)).map
            (fun pr => (⟨pr.1, pr.2⟩ : DataPoint))) none).slope *
          npMean (pts.map fun p => 1 / p.1)) ∧
    (∀ pts : List (ℝ × ℝ), pts.length < 2 →
      generate_van_hoff_plot pts =
        .error "At least 2 data points required for van't Hoff plot") ∧
    (∀ pts : List (ℝ × ℝ), 2 ≤ pts.length →
      (∃ p ∈ pts, p.1 ≤ 0 ∨ p.2 ≤ 0) →
      generate_van_hoff_plot pts =
        .error "Temperature and equilibrium constant must be positive") := by
  refine ⟨?_, ?_, ?_, ?_⟩
  · intro pts hlen hpos hdist
    refine ⟨_, van_hoff_ok pts hlen hpos, rfl, rfl, rfl, rfl, rfl, ?_, ?_, ?_⟩
    · simp [linspace]
    · rw [List.getElem?_map, linspace100_getElem _ _ 0 (by norm_num)]
      simp only [Option.map_some']
      norm_num
    · rw [List.getElem?_map, linspace100_getElem _ _ 99 (by norm_num)]
      simp only [Option.map_some']
      have h99 : listMin (pts.map fun p => 1 / p.1) +
          (listMax (pts.map fun p => 1 / p.1) -
            listMin (pts.map fun p => 1 / p.1)) * (99 : ℕ) / 99 =
          listMax (pts.map fun p => 1 / p.1) := by
        push_cast
        ring
      rw [h99]
  · intro pts hlen hpos hdist hln
    set invT := pts.map (fun p => 1 / p.1) with hinvT
    set lnK := pts.map (fun p => Real.log p.2) with hlnK
    set transformed := (List.zip invT lnK).map (fun pr => (⟨pr.1, pr.2⟩ : DataPoint))
      with htr
    have hxy_len : invT.length = lnK.length := by
      simp [hinvT, hlnK]
    have hx : transformed.map (·.concentration) = invT := by
      rw [htr, List.map_map]
      exact List.map_fst_zip _ _ (le_of_eq hxy_len)
    have hy : transformed.map (·.absorbance) = lnK := by
      rw [htr, List.map_map]
      exact List.map_snd_zip _ _ (le_of_eq hxy_len.symm)
    have hlen' : 2 ≤ transformed.length := by
      have : transformed.length = pts.length := by
        simp [htr, hinvT, hlnK]
      omega
    have hnn : ∀ p ∈ transformed, 0 ≤ p.concentration ∧ 0 ≤ p.absorbance := by
      intro dp hdp
      obtain ⟨pr, hpr, rfl⟩ := List.mem_map.mp hdp
      obtain ⟨h1, h2⟩ := List.of_mem_zip hpr
      constructor
      · obtain ⟨p, hp, hEq⟩ := List.mem_map.mp h1
        have : (0 : ℝ) < 1 / p.1 := by
          have := (hpos p hp).1
          positivity
        exact le_of_lt (hEq ▸ this)
      · exact hln _ h2
    have hdist' : ∃ p ∈ transformed, ∃ q ∈ transformed,
        p.concentration ≠ q.concentration := by
      obtain ⟨p, hp, q, hq, hne⟩ := hdist
      have ha : (1 / p.1) ∈ invT := List.mem_map_of_mem _ hp
      have hb : (1 / q.1) ∈ invT := List.mem_map_of_mem _ hq
      rw [← hx] at ha hb
      obtain ⟨dp, hdp, hdpc⟩ := List.mem_map.mp ha
      obtain ⟨dq, hdq, hdqc⟩ := List.mem_map.mp hb
      refine ⟨dp, hdp, dq, hdq, ?_⟩
      rw [hdpc, hdqc]
      intro heq
      have hp0 : p.1 ≠ 0 := (hpos p hp).1.ne'
      have hq0 : q.1 ≠ 0 := (hpos q hq).1.ne'
      field_simp at heq
      exact hne (by linarith)
    have hslope : (olsSpecResult transformed none).slope =
        devProdSum invT lnK / devSqSum invT := by
      show devProdSum (transformed.map (·.concentration))
          (transformed.map (·.absorbance)) /
          devSqSum (transformed.map (·.concentration)) = _
      rw [hx, hy]
    have hint : (olsSpecResult transformed none).intercept =
        npMean lnK - (olsSpecResult transformed none).slope * npMean invT := by
      show npMean (transformed.map (·.absorbance)) -
          devProdSum (transformed.map (·.concentration))
            (transformed.map (·.absorbance)) /
            devSqSum (transformed.map (·.concentration)) *
            npMean (transformed.map (·.concentration)) = _
      rw [hslope, hx, hy]
    exact ⟨lr_success transformed none hlen' hnn hdist', hslope, hint⟩
  · intro pts h
    simp only [generate_van_hoff_plot]
    rw [if_pos h]
  · intro pts hlen hneg
    simp only [generate_van_hoff_plot]
    rw [if_neg (by omega), if_pos hneg]

/-- Witness for C2: the analysis succeeds on {(1, e), (1/2, e²)} (where
ln K ≥ 0 so LinearRegression also succeeds on the transformed points), an
empty dataset fails, and a dataset with T ≤ 0 fails. -/
theorem van_hoff_analysis_spec_witness :
    exOk (generate_van_hoff_plot [((1 : ℝ), Real.exp 1), ((1 : ℝ) / 2, Real.exp 2)])
      = true ∧
    exOk (linear_regression ((List.zip
      ([((1 : ℝ), Real.exp 1), ((1 : ℝ) / 2, Real.exp 2)].map fun p => 1 / p.1)
      ([((1 : ℝ), Real.exp 1), ((1 : ℝ) / 2, Real.exp 2)].map fun p => Real.log p.2)).map
      (fun pr => (⟨pr.1, pr.2⟩ : DataPoint))) none) = true ∧
    generate_van_hoff_plot ([] : List (ℝ × ℝ)) =
      .error "At least 2 data points required for van't Hoff plot" ∧
    generate_van_hoff_plot [((-1 : ℝ), 1), ((1 : ℝ), 1)] =
      .error "Temperature and equilibrium constant must be positive" := by
  obtain ⟨good, rel, insufficient, nonpos⟩ := van_hoff_analysis_spec
  have hpos : ∀ p ∈ [((1 : ℝ), Real.exp 1), ((1 : ℝ) / 2, Real.exp 2)],
      0 < p.1 ∧ 0 < p.2 := by
    norm_num [List.forall_mem_cons, Real.exp_pos]
  have hdist : ∃ p ∈ [((1 : ℝ), Real.exp 1), ((1 : ℝ) / 2, Real.exp 2)],
      ∃ q ∈ [((1 : ℝ), Real.exp 1), ((1 : ℝ) / 2, Real.exp 2)], p.1 ≠ q.1 :=
    ⟨(1, Real.exp 1), List.mem_cons_self _ _,
     ((1 : ℝ) / 2, Real.exp 2), by simp, by norm_num⟩
  refine ⟨?_, ?_, insufficient [] (by norm_num), nonpos _ (by norm_num) ?_⟩
  · obtain ⟨d, hd, _⟩ := good _ (by norm_num) hpos hdist
    rw [hd]
    rfl
  · obtain ⟨hlr, -, -⟩ := rel _ (by norm_num) hpos hdist
      (by norm_num [List.forall_mem_cons, Real.log_exp])
    rw [hlr]
    rfl
  · exact ⟨(-1, 1), List.mem_cons_self _ _, Or.inl (by norm_num)⟩

end VanHoffTheorems
